import Mathlib

/-!
# Verification of the Progress Photo Analyzer API (src/index.js)

A shallow embedding of the two Express handlers `POST /api/analyze-photo`
and `POST /api/compare-photos`, together with the health endpoints, the
JSON extraction step (`text.match` of a first-brace-to-last-brace span
followed by `JSON.parse`) and the comparison endpoint's post-parse fixups.

JavaScript values flowing through the handlers are modelled by `Json`
(values produced by `JSON.parse` / sent by `res.json`) and `JsVal`
(a possibly-`undefined` JavaScript value, as produced by destructuring
`req.body`).  Machine floats are modelled by `Rat`; the claims under
study never depend on float rounding.
-/

namespace PhotoApi

/-- A JSON value (the result of `JSON.parse`, or a `res.json` body).
Objects are association lists with unique keys in insertion order, as a
JavaScript object literal built by `JSON.parse` is (a repeated key keeps
its first position and the last value). -/
inductive Json where
  | null : Json
  | bool (b : Bool) : Json
  | num (q : Rat) : Json
  | str (s : String) : Json
  | arr (elems : List Json) : Json
  | obj (fields : List (String × Json)) : Json

namespace Json

-- Decidable equality, via a simultaneous boolean comparison of values,
-- array elements and object fields.
mutual

def eqb (a b : Json) : Bool :=
  match a, b with
  | .num x, .num y => x == y
  | .str x, .str y => x == y
  | .bool x, .bool y => x == y
  | .null, .null => true
  | .arr xs, .arr ys => eqbElems xs ys
  | .obj fx, .obj fy => eqbFields fx fy
  | _, _ => false

def eqbElems (xs ys : List Json) : Bool :=
  match xs, ys with
  | [], rest => rest.isEmpty
  | _ :: _, [] => false
  | x :: xs', y :: ys' => eqb x y && eqbElems xs' ys'

def eqbFields (fx fy : List (String × Json)) : Bool :=
  match fx, fy with
  | [], rest => rest.isEmpty
  | _ :: _, [] => false
  | (k, v) :: fx', (k', v') :: fy' =>
      decide (k = k') && eqb v v' && eqbFields fx' fy'

end

mutual

theorem eqb_correct : ∀ a b : Json, eqb a b = true ↔ a = b
  | .num _, b => by cases b <;> simp [eqb]
  | .str _, b => by cases b <;> simp [eqb]
  | .bool _, b => by cases b <;> simp [eqb]
  | .null, b => by cases b <;> simp [eqb]
  | .arr xs, b => by
      cases b <;> simp [eqb]
      exact eqbElems_correct xs _
  | .obj fx, b => by
      cases b <;> simp [eqb]
      exact eqbFields_correct fx _

theorem eqbElems_correct : ∀ xs ys : List Json, eqbElems xs ys = true ↔ xs = ys
  | [], ys => by cases ys <;> simp [eqbElems]
  | x :: xs', ys => by
      cases ys with
      | nil => simp [eqbElems]
      | cons y ys' =>
          rw [show eqbElems (x :: xs') (y :: ys') = (eqb x y && eqbElems xs' ys') from rfl,
            Bool.and_eq_true, eqb_correct x y, eqbElems_correct xs' ys']
          simp

theorem eqbFields_correct :
    ∀ fx fy : List (String × Json), eqbFields fx fy = true ↔ fx = fy
  | [], fy => by cases fy <;> simp [eqbFields]
  | (k, v) :: fx', fy => by
      cases fy with
      | nil => simp [eqbFields]
      | cons kv fy' =>
          obtain ⟨k', v'⟩ := kv
          rw [show eqbFields ((k, v) :: fx') ((k', v') :: fy')
                = (decide (k = k') && eqb v v' && eqbFields fx' fy') from rfl,
            Bool.and_eq_true, Bool.and_eq_true, eqb_correct v v',
            eqbFields_correct fx' fy']
          simp [and_assoc]

end

instance : DecidableEq Json := fun a b =>
  decidable_of_iff (eqb a b = true) (eqb_correct a b)

/-- First-match association-list lookup (JavaScript property read on an
object with unique keys). -/
def lookupField : List (String × Json) → String → Option Json
  | [], _ => none
  | (k, v) :: rest, key => if k = key then some v else lookupField rest key

/-- JavaScript property assignment `o[key] = v` on an object represented
as an association list: an existing key keeps its position and gets the
new value, a new key is appended. -/
def setField : List (String × Json) → String → Json → List (String × Json)
  | [], key, v => [(key, v)]
  | (k, w) :: rest, key, v =>
      if k = key then (key, v) :: rest else (k, w) :: setField rest key v

/-- Is this JSON value an array? -/
def isArr : Json → Bool
  | .arr _ => true
  | _ => false

end Json

/-- A JavaScript value as seen after destructuring `req.body`: either
`undefined` (the field was absent) or a JSON value. -/
inductive JsVal where
  | undefined : JsVal
  | js (j : Json) : JsVal

deriving instance DecidableEq for JsVal

namespace JsVal

/-- JavaScript falsiness of such a value: `undefined`, `null`, `""`, `0`
and `false` are falsy (NaN does not arise from a parsed JSON body). -/
def falsy : JsVal → Bool
  | .undefined => true
  | .js .null => true
  | .js (.str s) => s.isEmpty
  | .js (.num q) => q == 0
  | .js (.bool b) => !b
  | .js (.arr _) => false
  | .js (.obj _) => false

/-- `v === 'lit'` for a string literal `lit`. -/
def isStr (v : JsVal) (lit : String) : Bool :=
  match v with
  | .js (.str s) => s == lit
  | _ => false

/-- JavaScript `a || b`. -/
def orElse (a b : JsVal) : JsVal := if a.falsy then b else a

end JsVal

/- JavaScript string conversion, as used by template-literal
interpolation.  Exact for the values the handlers interpolate (strings;
`undefined`/`null`/booleans stringify to their names; integers to their
decimal digits; arrays join their elements with `","`, `null` elements
becoming empty); a non-integer number falls back to Lean's `Rat`
rendering, an approximation of ECMAScript float formatting that no
claim exercises. -/
mutual

def jsToStringJ : Json → String
  | .null => "null"
  | .bool true => "true"
  | .bool false => "false"
  | .num q => if q.den = 1 then toString q.num else toString q
  | .str s => s
  | .arr xs => String.intercalate "," (jsToStringElems xs)
  | .obj _ => "[object Object]"

def jsToStringElems : List Json → List String
  | [] => []
  | j :: rest =>
      (match j with
       | .null => ""
       | j' => jsToStringJ j') :: jsToStringElems rest

end

def JsVal.jsToString : JsVal → String
  | .undefined => "undefined"
  | .js j => jsToStringJ j

/-! ## `JSON.parse`

A strict JSON parser modelling the ECMAScript built-in: `none` models a
thrown `SyntaxError`.  Objects are built with `Json.setField`, so a
repeated key keeps its first position and the last value, as in JS.
`\uXXXX` escapes map the code unit through `Char.ofNat`
(an approximation for surrogate halves, which no claim exercises). -/

/-- JSON whitespace. -/
def isJsonWs (c : Char) : Bool :=
  c = ' ' || c = '\t' || c = '\n' || c = '\r'

def skipWs (cs : List Char) : List Char := cs.dropWhile isJsonWs

def hexVal? (c : Char) : Option Nat :=
  if '0' ≤ c ∧ c ≤ '9' then some (c.toNat - '0'.toNat)
  else if 'a' ≤ c ∧ c ≤ 'f' then some (c.toNat - 'a'.toNat + 10)
  else if 'A' ≤ c ∧ c ≤ 'F' then some (c.toNat - 'A'.toNat + 10)
  else none

/-- Body of a JSON string literal, after the opening quote; returns the
decoded string and the input after the closing quote. -/
def parseStringBody : List Char → List Char → Option (String × List Char)
  | [], _ => none
  | c :: rest, acc =>
    if c = '"' then some (String.mk acc.reverse, rest)
    else if c = '\\' then
      match rest with
      | [] => none
      | e :: rest' =>
        if e = '"' then parseStringBody rest' ('"' :: acc)
        else if e = '\\' then parseStringBody rest' ('\\' :: acc)
        else if e = '/' then parseStringBody rest' ('/' :: acc)
        else if e = 'b' then parseStringBody rest' ('\x08' :: acc)
        else if e = 'f' then parseStringBody rest' ('\x0C' :: acc)
        else if e = 'n' then parseStringBody rest' ('\n' :: acc)
        else if e = 'r' then parseStringBody rest' ('\r' :: acc)
        else if e = 't' then parseStringBody rest' ('\t' :: acc)
        else if e = 'u' then
          match rest' with
          | h₁ :: h₂ :: h₃ :: h₄ :: rest'' =>
            match hexVal? h₁, hexVal? h₂, hexVal? h₃, hexVal? h₄ with
            | some a, some b, some c', some d =>
                parseStringBody rest''
                  (Char.ofNat (((a * 16 + b) * 16 + c') * 16 + d) :: acc)
            | _, _, _, _ => none
          | _ => none
        else none
    else if c.toNat < 0x20 then none
    else parseStringBody rest (c :: acc)

def digitsToNat (ds : List Char) : Nat :=
  ds.foldl (fun n c => n * 10 + (c.toNat - '0'.toNat)) 0

/-- A JSON number per the strict grammar: optional minus, an integer
part with no leading zero, an optional fraction, an optional exponent. -/
def parseNumber (cs : List Char) : Option (Rat × List Char) :=
  let (neg, cs₁) : Bool × List Char := match cs with
    | '-' :: rest => (true, rest)
    | _ => (false, cs)
  let intDs := cs₁.takeWhile Char.isDigit
  let cs₂ := cs₁.dropWhile Char.isDigit
  if intDs.isEmpty then none
  else if intDs.length > 1 ∧ intDs.headD '0' = '0' then none
  else
    let (fracDs, cs₃) : List Char × List Char := match cs₂ with
      | '.' :: rest => (rest.takeWhile Char.isDigit, rest.dropWhile Char.isDigit)
      | _ => ([], cs₂)
    if cs₂.headD ' ' = '.' ∧ fracDs.isEmpty then none
    else
      let hasExp := cs₃.headD ' ' = 'e' ∨ cs₃.headD ' ' = 'E'
      let (expNeg, expDs, cs₅) : Bool × List Char × List Char :=
        if hasExp then
          match cs₃.drop 1 with
          | '+' :: rest => (false, rest.takeWhile Char.isDigit, rest.dropWhile Char.isDigit)
          | '-' :: rest => (true, rest.takeWhile Char.isDigit, rest.dropWhile Char.isDigit)
          | rest => (false, rest.takeWhile Char.isDigit, rest.dropWhile Char.isDigit)
        else (false, [], cs₃)
      if hasExp ∧ expDs.isEmpty then none
      else
        let mantNat := digitsToNat (intDs ++ fracDs)
        let mant : Int := if neg then -(Int.ofNat mantNat) else Int.ofNat mantNat
        let expVal : Int :=
          if expNeg then -(Int.ofNat (digitsToNat expDs)) else Int.ofNat (digitsToNat expDs)
        let e : Int := expVal - Int.ofNat fracDs.length
        let q : Rat :=
          if 0 ≤ e then mkRat (mant * Int.ofNat (10 ^ e.toNat)) 1
          else mkRat mant (10 ^ (-e).toNat)
        some (q, cs₅)

mutual

/-- Parse one JSON value after skipping leading whitespace. -/
def parseVal : Nat → List Char → Option (Json × List Char)
  | 0, _ => none
  | fuel + 1, cs =>
    match skipWs cs with
    | [] => none
    | c :: rest =>
      if c = '"' then
        match parseStringBody rest [] with
        | some (s, rest') => some (.str s, rest')
        | none => none
      else if c = '\x7b' then
        match skipWs rest with
        | '\x7d' :: rest' => some (.obj [], rest')
        | _ => parseMembers fuel [] rest
      else if c = '[' then
        match skipWs rest with
        | ']' :: rest' => some (.arr [], rest')
        | _ => parseElems fuel [] rest
      else if c = 't' then
        match rest with
        | 'r' :: 'u' :: 'e' :: rest' => some (.bool true, rest')
        | _ => none
      else if c = 'f' then
        match rest with
        | 'a' :: 'l' :: 's' :: 'e' :: rest' => some (.bool false, rest')
        | _ => none
      else if c = 'n' then
        match rest with
        | 'u' :: 'l' :: 'l' :: rest' => some (.null, rest')
        | _ => none
      else
        match parseNumber (c :: rest) with
        | some (q, rest') => some (.num q, rest')
        | none => none

/-- Parse the members of an object, starting before a key. -/
def parseMembers : Nat → List (String × Json) → List Char → Option (Json × List Char)
  | 0, _, _ => none
  | fuel + 1, acc, cs =>
    match skipWs cs with
    | '"' :: rest =>
      match parseStringBody rest [] with
      | some (key, rest₂) =>
        match skipWs rest₂ with
        | ':' :: rest₃ =>
          match parseVal fuel rest₃ with
          | some (v, rest₄) =>
            let acc' := Json.setField acc key v
            match skipWs rest₄ with
            | ',' :: rest₅ => parseMembers fuel acc' rest₅
            | '\x7d' :: rest₅ => some (.obj acc', rest₅)
            | _ => none
          | none => none
        | _ => none
      | none => none
    | _ => none

/-- Parse the elements of an array, starting before an element. -/
def parseElems : Nat → List Json → List Char → Option (Json × List Char)
  | 0, _, _ => none
  | fuel + 1, acc, cs =>
    match parseVal fuel cs with
    | some (v, rest) =>
      match skipWs rest with
      | ',' :: rest' => parseElems fuel (v :: acc) rest'
      | ']' :: rest' => some (.arr (v :: acc).reverse, rest')
      | _ => none
    | none => none

end

/-- `JSON.parse`: parse a complete JSON text, allowing trailing
whitespace only.  The fuel bound dominates the recursion depth, which
consumes at least one character every two levels. -/
def parseJson (s : String) : Option Json :=
  match parseVal (2 * s.length + 8) s.toList with
  | some (v, rest) => if (skipWs rest).isEmpty then some v else none
  | none => none

/-- The brace-span match `text.match(/\x7b[\s\S]*\x7d/)`, returning the
matched substring: from the first `\x7b` to the last `\x7d`, provided the
latter comes after the former. -/
def braceSpan (text : String) : Option String :=
  let cs := text.toList
  match cs.findIdx? (· = '\x7b'), cs.reverse.findIdx? (· = '\x7d') with
  | some i, some k =>
      let j := cs.length - 1 - k
      if i < j then some (String.mk ((cs.drop i).take (j - i + 1))) else none
  | _, _ => none

/-! ## The provider reply text

`data.choices?.[0]?.message?.content || ''` (lines 106 and 200). -/

/-- Non-optional property read on a JSON value (primitive and array
receivers yield `undefined` for the names the handlers use). -/
def getProp (j : Json) (key : String) : JsVal :=
  match j with
  | .obj fs =>
    match Json.lookupField fs key with
    | some v => .js v
    | none => .undefined
  | _ => .undefined

/-- Optional-chained property read `v?.key`. -/
def optProp (v : JsVal) (key : String) : JsVal :=
  match v with
  | .undefined => .undefined
  | .js .null => .undefined
  | .js j => getProp j key

/-- Optional-chained index read `v?.[0]`. -/
def optIndex0 (v : JsVal) : JsVal :=
  match v with
  | .undefined => .undefined
  | .js .null => .undefined
  | .js (.arr []) => .undefined
  | .js (.arr (x :: _)) => .js x
  | .js (.str s) =>
    match s.toList with
    | [] => .undefined
    | ch :: _ => .js (.str (String.mk [ch]))
  | .js (.obj fs) => getProp (.obj fs) "0"
  | .js _ => .undefined

/-- `const text = data.choices?.[0]?.message?.content || ''` followed by
the use of `text` as a string (`text.match`).  `.error ()` models a
thrown TypeError (reading a property of `null`, or calling `.match` on a
truthy non-string), which the handler boundary turns into the generic
500. -/
def replyText (data : Json) : Except Unit String :=
  match data with
  | .null => .error ()
  | _ =>
    let v := optProp (optProp (optIndex0 (getProp data "choices")) "message") "content"
    if v.falsy then .ok ""
    else
      match v with
      | .js (.str s) => .ok s
      | _ => .error ()

/-! ## Environment, requests, outbound payloads and responses -/

/-- The process environment fields the handlers read:
`process.env.openai_api_key` and `process.env.OPENAI_API_KEY`. -/
structure Env where
  lowerKey : Option String
  upperKey : Option String
deriving DecidableEq

/-- `process.env.openai_api_key || process.env.OPENAI_API_KEY`, with `""`
standing for a falsy result (unset or empty); the guard `if (!apiKey)`
only distinguishes falsy from truthy. -/
def Env.apiKey (env : Env) : String :=
  match env.lowerKey with
  | some s => if s ≠ "" then s else env.upperKey.getD ""
  | none => env.upperKey.getD ""

/-- The fields `POST /api/analyze-photo` destructures from `req.body`. -/
structure AnalyzeReq where
  imageBase64 : JsVal
  mimeType : JsVal
  previousImageBase64 : JsVal
  previousMimeType : JsVal
deriving DecidableEq

/-- The fields `POST /api/compare-photos` destructures from `req.body`. -/
structure CompareReq where
  beforeBase64 : JsVal
  beforeMime : JsVal
  afterBase64 : JsVal
  afterMime : JsVal
  beforePose : JsVal
  afterPose : JsVal
deriving DecidableEq

/-- One entry of the `content` array of the single outbound user
message. -/
inductive Block where
  | text (s : String)
  | imageUrl (url : String)
deriving DecidableEq

/-- The outbound chat-completions request body (one user message). -/
structure Payload where
  model : String
  content : List Block
  maxTokens : Nat
deriving DecidableEq

/-- An HTTP response produced by a handler. -/
structure Resp where
  status : Nat
  body : Json
deriving DecidableEq

def errBody (msg : String) : Json := .obj [("error", .str msg)]

/-- What the outbound `fetch` produced, as seen by the handler:
a non-2xx status, a 2xx whose body failed `response.json()`, or a 2xx
with a parsed JSON body. -/
inductive ProviderResult where
  | notOk
  | badBody
  | ok (data : Json)
deriving DecidableEq

/-- `` `data:${mime || 'image/jpeg'};base64,${b64}` `` -/
def dataUrl (mime b64 : JsVal) : String :=
  "data:" ++ (JsVal.orElse mime (.js (.str "image/jpeg"))).jsToString
    ++ ";base64," ++ b64.jsToString

/-! ## Prompt templates (lines 49-62, 69-82, 141-170) -/

def analyzeComparePromptText : String :=
  "\nYou are a fitness progress analyzer. Compare these two progress photos (first is BEFORE, second is AFTER/current). \nFor each body part (shoulders, arms, chest, back, core, legs), provide a brief observation.\nRespond ONLY with JSON, e.g.:\n\n\x7b\n  \"shoulders\": \"...\",\n  \"arms\": \"...\",\n  \"chest\": \"...\",\n  \"back\": \"...\",\n  \"core\": \"...\",\n  \"legs\": \"...\",\n  \"overall\": \"...\"\n\x7d"

def analyzeBasePromptText : String :=
  "\nYou are a fitness progress analyzer. Analyze this baseline progress photo.\nFor each body part (shoulders, arms, chest, back, core, legs), provide a brief observation.\nRespond ONLY with JSON, e.g.:\n\n\x7b\n  \"shoulders\": \"...\",\n  \"arms\": \"...\",\n  \"chest\": \"...\",\n  \"back\": \"...\",\n  \"core\": \"...\",\n  \"legs\": \"...\",\n  \"overall\": \"...\"\n\x7d"

def bodyFatClause : String :=
  "If possible, provide a bodyFat estimate range in overallSummary."

def comparePromptBase : String :=
  "\nCompare these fitness progress photos. First is BEFORE, second is AFTER.\nFor each muscle group (Shoulders, Arms, Chest, Core, Back, Legs):\n- Provide \"winner\": \"before\", \"after\", or \"same\"\n- Provide \"observation\": a short note about progress\n\nAlso provide:\n- overallSummary: short summary of overall progress\n- recommendations: an array of objects with \"text\" and \"priority\" (\"high\", \"medium\", \"low\")\n- focusAreas: an array of muscle groups the user should focus on next (e.g., [\"Chest\", \"Back\"])\n\nReturn ONLY JSON with the following exact structure:\n\x7b\n  \"muscles\": [\n    \x7b \"name\": \"Shoulders\", \"winner\": \"...\", \"observation\": \"...\" \x7d,\n    \x7b \"name\": \"Arms\", \"winner\": \"...\", \"observation\": \"...\" \x7d,\n    \x7b \"name\": \"Chest\", \"winner\": \"...\", \"observation\": \"...\" \x7d,\n    \x7b \"name\": \"Core\", \"winner\": \"...\", \"observation\": \"...\" \x7d,\n    \x7b \"name\": \"Back\", \"winner\": \"...\", \"observation\": \"...\" \x7d,\n    \x7b \"name\": \"Legs\", \"winner\": \"...\", \"observation\": \"...\" \x7d\n  ],\n  \"overallSummary\": \"...\",\n  \"recommendations\": [\n    \x7b \"text\": \"...\", \"priority\": \"high/medium/low\" \x7d\n  ],\n  \"focusAreas\": [\"...\"],\n  \"daysApart\": 0\n\x7d\n"

/-- The comparison prompt (line 141): the base template, then the
conditional body-fat clause, then the closing newline. -/
def comparePrompt (hasFrontShot : Bool) : String :=
  comparePromptBase ++ (if hasFrontShot then bodyFatClause else "") ++ "\n"

/-! ## Handlers -/

/-- `GET /` (lines 18-20). -/
def rootHandler (_env : Env) : Resp :=
  ⟨200, .obj [("status", .str "ok"), ("message", .str "Progress Photo Analyzer API")]⟩

/-- `GET /health` (lines 22-24). -/
def healthHandler (_env : Env) : Resp :=
  ⟨200, .obj [("status", .str "ok")]⟩

/-- `POST /api/analyze-photo`, up to the outbound call (lines 31-98):
either an early error response, or the payload passed to `fetch`. -/
def analyzePre (env : Env) (req : AnalyzeReq) : Except Resp Payload :=
  if env.apiKey = "" then .error ⟨500, errBody "OpenAI API key not configured"⟩
  else if req.imageBase64.falsy then .error ⟨400, errBody "Image data is required"⟩
  else
    let dUrl := dataUrl req.mimeType req.imageBase64
    if req.previousImageBase64.falsy then
      .ok ⟨"gpt-4.1-mini", [.text analyzeBasePromptText, .imageUrl dUrl], 1000⟩
    else
      let prevUrl := dataUrl req.previousMimeType req.previousImageBase64
      .ok ⟨"gpt-4.1-mini",
           [.text analyzeComparePromptText, .imageUrl prevUrl, .imageUrl dUrl], 1000⟩

/-- `POST /api/analyze-photo`, extraction of the reply text
(lines 107-113 plus the catch boundary for `JSON.parse`). -/
def analyzeExtract (text : String) : Resp :=
  match braceSpan text with
  | none => ⟨500, errBody "Invalid AI response"⟩
  | some span =>
    match parseJson span with
    | none => ⟨500, errBody "Internal server error"⟩
    | some v => ⟨200, v⟩

/-- `POST /api/analyze-photo`, after the outbound call
(lines 100-117). -/
def analyzePost (prov : ProviderResult) : Resp :=
  match prov with
  | .notOk => ⟨500, errBody "Failed to analyze photo"⟩
  | .badBody => ⟨500, errBody "Internal server error"⟩
  | .ok data =>
    match replyText data with
    | .error _ => ⟨500, errBody "Internal server error"⟩
    | .ok text => analyzeExtract text

/-- The whole `POST /api/analyze-photo` handler, as a function of the
environment, the destructured body and the provider's behaviour. -/
def analyzeHandler (env : Env) (req : AnalyzeReq) (prov : ProviderResult) : Resp :=
  match analyzePre env req with
  | .error r => r
  | .ok _ => analyzePost prov

/-- Does `POST /api/analyze-photo` reach the outbound `fetch`? -/
def analyzeCallsProvider (env : Env) (req : AnalyzeReq) : Bool :=
  match analyzePre env req with
  | .error _ => false
  | .ok _ => true

/-- `POST /api/compare-photos`, up to the outbound call
(lines 125-192). -/
def comparePre (env : Env) (req : CompareReq) : Except Resp Payload :=
  if env.apiKey = "" then .error ⟨500, errBody "OpenAI API key not configured"⟩
  else if req.beforeBase64.falsy || req.afterBase64.falsy then
    .error ⟨400, errBody "Both images required"⟩
  else
    let hasFrontShot := req.beforePose.isStr "front" || req.afterPose.isStr "front"
    .ok ⟨"gpt-4.1-mini",
         [.text (comparePrompt hasFrontShot),
          .imageUrl (dataUrl req.beforeMime req.beforeBase64),
          .imageUrl (dataUrl req.afterMime req.afterBase64)], 1600⟩

/-- The post-parse fixups of the comparison endpoint (lines 209-213):
`parsed.daysApart = 0`, then `if (!parsed.focusAreas) parsed.focusAreas
= []`. -/
def compareFixFields (fs : List (String × Json)) : List (String × Json) :=
  let fs₁ := Json.setField fs "daysApart" (.num 0)
  let focus : JsVal :=
    match Json.lookupField fs₁ "focusAreas" with
    | some v => .js v
    | none => .undefined
  if focus.falsy then Json.setField fs₁ "focusAreas" (.arr []) else fs₁

/-- `POST /api/compare-photos`, extraction and fixups (lines 201-215
plus the catch boundary).  A parsed non-object value cannot arise from a
span that starts with a brace; those arms record the JS semantics of
property assignment on such a value (throw on `null`, silent no-op on
another primitive). -/
def compareExtract (text : String) : Resp :=
  match braceSpan text with
  | none => ⟨500, errBody "Invalid AI response"⟩
  | some span =>
    match parseJson span with
    | none => ⟨500, errBody "Internal server error"⟩
    | some (.obj fs) => ⟨200, .obj (compareFixFields fs)⟩
    | some .null => ⟨500, errBody "Internal server error"⟩
    | some v => ⟨200, v⟩

/-- `POST /api/compare-photos`, after the outbound call
(lines 194-219). -/
def comparePost (prov : ProviderResult) : Resp :=
  match prov with
  | .notOk => ⟨500, errBody "Failed to compare photos"⟩
  | .badBody => ⟨500, errBody "Internal server error"⟩
  | .ok data =>
    match replyText data with
    | .error _ => ⟨500, errBody "Internal server error"⟩
    | .ok text => compareExtract text

/-- The whole `POST /api/compare-photos` handler. -/
def compareHandler (env : Env) (req : CompareReq) (prov : ProviderResult) : Resp :=
  match comparePre env req with
  | .error r => r
  | .ok _ => comparePost prov

/-- Does `POST /api/compare-photos` reach the outbound `fetch`? -/
def compareCallsProvider (env : Env) (req : CompareReq) : Bool :=
  match comparePre env req with
  | .error _ => false
  | .ok _ => true

/-- Is this content block an image reference? -/
def Block.isImage : Block → Bool
  | .imageUrl _ => true
  | .text _ => false

/-! ## Helper lemmas -/

theorem Json.lookupField_setField_self (fs : List (String × Json)) (k : String) (v : Json) :
    Json.lookupField (Json.setField fs k v) k = some v := by
  induction fs with
  | nil => simp [Json.setField, Json.lookupField]
  | cons hd tl ih =>
    obtain ⟨k₀, w⟩ := hd
    by_cases h : k₀ = k <;> simp [Json.setField, Json.lookupField, h, ih]

theorem Json.lookupField_setField_ne (fs : List (String × Json)) (k k' : String)
    (v : Json) (h : k' ≠ k) :
    Json.lookupField (Json.setField fs k v) k' = Json.lookupField fs k' := by
  induction fs with
  | nil => simp [Json.setField, Json.lookupField, Ne.symm h]
  | cons hd tl ih =>
    obtain ⟨k₀, w⟩ := hd
    by_cases hk : k₀ = k
    · subst hk
      simp [Json.setField, Json.lookupField, Ne.symm h]
    · simp [Json.setField, Json.lookupField, hk, ih]

end PhotoApi

namespace PhotoApi

/-! ## The claims -/

/-- **C3.** A `POST /api/analyze-photo` request whose `imageBase64` is
missing or empty is answered `400 \x7b"error":"Image data is required"\x7d`,
and a `POST /api/compare-photos` request with `beforeBase64` or
`afterBase64` missing or empty is answered
`400 \x7b"error":"Both images required"\x7d`; in both cases no outbound
provider call is made.  (The handlers check the API key first, so a
configured key is assumed.) -/
theorem c3_missing_image_400 (env : Env) (areq : AnalyzeReq) (creq : CompareReq)
    (prov : ProviderResult) (hkey : env.apiKey ≠ "")
    (ha : areq.imageBase64 = .undefined ∨ areq.imageBase64 = .js (.str ""))
    (hc : creq.beforeBase64 = .undefined ∨ creq.beforeBase64 = .js (.str "")
        ∨ creq.afterBase64 = .undefined ∨ creq.afterBase64 = .js (.str "")) :
    analyzeHandler env areq prov = ⟨400, errBody "Image data is required"⟩
    ∧ analyzeCallsProvider env areq = false
    ∧ compareHandler env creq prov = ⟨400, errBody "Both images required"⟩
    ∧ compareCallsProvider env creq = false := by
  have e₁ : JsVal.falsy .undefined = true := rfl
  have e₂ : JsVal.falsy (.js (.str "")) = true := by decide
  have hfa : areq.imageBase64.falsy = true := by
    rcases ha with h | h <;> simp [h, e₁, e₂]
  have hfc : (creq.beforeBase64.falsy || creq.afterBase64.falsy) = true := by
    rcases hc with h | h | h | h <;> simp [h, e₁, e₂]
  refine ⟨?_, ?_, ?_, ?_⟩ <;>
    simp [analyzeHandler, analyzePre, analyzeCallsProvider,
      compareHandler, comparePre, compareCallsProvider, hkey, hfa, hfc]

theorem c3_missing_image_400_witness :
    (Env.mk (some "k") none).apiKey ≠ ""
    ∧ (analyzeHandler (Env.mk (some "k") none) (AnalyzeReq.mk .undefined .undefined .undefined .undefined) .notOk
         = ⟨400, errBody "Image data is required"⟩
       ∧ analyzeCallsProvider (Env.mk (some "k") none) (AnalyzeReq.mk .undefined .undefined .undefined .undefined) = false
       ∧ compareHandler (Env.mk (some "k") none)
           (CompareReq.mk (.js (.str "b")) .undefined .undefined .undefined .undefined .undefined) .notOk
         = ⟨400, errBody "Both images required"⟩
       ∧ compareCallsProvider (Env.mk (some "k") none)
           (CompareReq.mk (.js (.str "b")) .undefined .undefined .undefined .undefined .undefined) = false) :=
  ⟨by decide,
   c3_missing_image_400 (Env.mk (some "k") none)
     (AnalyzeReq.mk .undefined .undefined .undefined .undefined)
     (CompareReq.mk (.js (.str "b")) .undefined .undefined .undefined .undefined .undefined)
     .notOk (by decide) (Or.inl rfl) (Or.inr (Or.inr (Or.inl rfl)))⟩

/-- **C7.** With the provider API key environment variables unset, both
POST endpoints answer `500` with the key-not-configured error and never
reach the outbound call, while the liveness endpoints answer `200`
regardless of the environment (the absence of the key, read only inside
the request handlers, cannot prevent startup or health checks). -/
theorem c7_missing_key_500 (env : Env) (areq : AnalyzeReq) (creq : CompareReq)
    (prov : ProviderResult) (h₁ : env.lowerKey = none) (h₂ : env.upperKey = none) :
    analyzeHandler env areq prov = ⟨500, errBody "OpenAI API key not configured"⟩
    ∧ compareHandler env creq prov = ⟨500, errBody "OpenAI API key not configured"⟩
    ∧ analyzeCallsProvider env areq = false
    ∧ compareCallsProvider env creq = false
    ∧ healthHandler env = ⟨200, .obj [("status", .str "ok")]⟩
    ∧ rootHandler env = ⟨200, .obj [("status", .str "ok"),
        ("message", .str "Progress Photo Analyzer API")]⟩ := by
  have hk : env.apiKey = "" := by simp [Env.apiKey, h₁, h₂]
  refine ⟨?_, ?_, ?_, ?_, rfl, rfl⟩ <;>
    simp [analyzeHandler, analyzePre, analyzeCallsProvider,
      compareHandler, comparePre, compareCallsProvider, hk]

theorem c7_missing_key_500_witness :
    (Env.mk none none).lowerKey = none
    ∧ (Env.mk none none).upperKey = none
    ∧ (analyzeHandler (Env.mk none none) (AnalyzeReq.mk (.js (.str "x")) .undefined .undefined .undefined) .notOk
         = ⟨500, errBody "OpenAI API key not configured"⟩
       ∧ compareHandler (Env.mk none none)
           (CompareReq.mk (.js (.str "b")) .undefined (.js (.str "a")) .undefined .undefined .undefined) .notOk
         = ⟨500, errBody "OpenAI API key not configured"⟩
       ∧ analyzeCallsProvider (Env.mk none none) (AnalyzeReq.mk (.js (.str "x")) .undefined .undefined .undefined) = false
       ∧ compareCallsProvider (Env.mk none none)
           (CompareReq.mk (.js (.str "b")) .undefined (.js (.str "a")) .undefined .undefined .undefined) = false
       ∧ healthHandler (Env.mk none none) = ⟨200, .obj [("status", .str "ok")]⟩
       ∧ rootHandler (Env.mk none none) = ⟨200, .obj [("status", .str "ok"),
           ("message", .str "Progress Photo Analyzer API")]⟩) :=
  ⟨rfl, rfl,
   c7_missing_key_500 (Env.mk none none)
     (AnalyzeReq.mk (.js (.str "x")) .undefined .undefined .undefined)
     (CompareReq.mk (.js (.str "b")) .undefined (.js (.str "a")) .undefined .undefined .undefined)
     .notOk rfl rfl⟩

/-- **C9.** When the provider's 2xx body is an object that lacks
`choices`, a first choice, a `message`, or a message `content`, the
optional chain yields `undefined`, `|| ''` turns it into the empty
string, and both endpoints answer the invalid-AI-response 500 rather
than throwing. -/
theorem c9_missing_reply_fields (fs : List (String × Json))
    (h : Json.lookupField fs "choices" = none
       ∨ Json.lookupField fs "choices" = some (.arr [])
       ∨ (∃ ms rest, Json.lookupField fs "choices" = some (.arr (.obj ms :: rest))
            ∧ Json.lookupField ms "message" = none)
       ∨ (∃ ms rest cs, Json.lookupField fs "choices" = some (.arr (.obj ms :: rest))
            ∧ Json.lookupField ms "message" = some (.obj cs)
            ∧ Json.lookupField cs "content" = none)) :
    replyText (.obj fs) = .ok ""
    ∧ analyzePost (.ok (.obj fs)) = ⟨500, errBody "Invalid AI response"⟩
    ∧ comparePost (.ok (.obj fs)) = ⟨500, errBody "Invalid AI response"⟩ := by
  have hrt : replyText (.obj fs) = .ok "" := by
    rcases h with h | h | ⟨ms, rest, h, hm⟩ | ⟨ms, rest, cs, h, hm, hc⟩
    · simp [replyText, getProp, optProp, optIndex0, h, JsVal.falsy]
    · simp [replyText, getProp, optProp, optIndex0, h, JsVal.falsy]
    · simp [replyText, getProp, optProp, optIndex0, h, hm, JsVal.falsy]
    · simp [replyText, getProp, optProp, optIndex0, h, hm, hc, JsVal.falsy]
  have hbs : braceSpan "" = none := by decide
  exact ⟨hrt, by simp [analyzePost, hrt, analyzeExtract, hbs],
    by simp [comparePost, hrt, compareExtract, hbs]⟩

theorem c9_missing_reply_fields_witness :
    Json.lookupField [] "choices" = none
    ∧ (replyText (.obj []) = .ok ""
       ∧ analyzePost (.ok (.obj [])) = ⟨500, errBody "Invalid AI response"⟩
       ∧ comparePost (.ok (.obj [])) = ⟨500, errBody "Invalid AI response"⟩) :=
  ⟨rfl, c9_missing_reply_fields [] (Or.inl rfl)⟩

/-- **C8.** A successfully parsed reply is passed through unvalidated:
the analyze endpoint answers exactly the parsed object, and the
comparison fixups change no field other than `daysApart` and
`focusAreas`. -/
theorem c8_parsed_passthrough (text span : String) (v : Json)
    (fs : List (String × Json)) (k : String)
    (h1 : braceSpan text = some span) (h2 : parseJson span = some v)
    (hk1 : k ≠ "daysApart") (hk2 : k ≠ "focusAreas") :
    analyzeExtract text = ⟨200, v⟩
    ∧ Json.lookupField (compareFixFields fs) k = Json.lookupField fs k := by
  constructor
  · simp [analyzeExtract, h1, h2]
  · have base := Json.lookupField_setField_ne fs "daysApart" k (.num 0) hk1
    have base2 := Json.lookupField_setField_ne
      (Json.setField fs "daysApart" (.num 0)) "focusAreas" k (.arr []) hk2
    simp only [compareFixFields]
    split_ifs with hf
    · rw [base2, base]
    · exact base

theorem c8_parsed_passthrough_witness :
    braceSpan "\x7b\x7d" = some "\x7b\x7d"
    ∧ parseJson "\x7b\x7d" = some (.obj [])
    ∧ ("muscles" : String) ≠ "daysApart"
    ∧ ("muscles" : String) ≠ "focusAreas"
    ∧ (analyzeExtract "\x7b\x7d" = ⟨200, .obj []⟩
       ∧ Json.lookupField (compareFixFields [("a", .num 1)]) "muscles"
           = Json.lookupField [("a", .num 1)] "muscles") :=
  ⟨by decide, rfl, by decide, by decide,
   c8_parsed_passthrough "\x7b\x7d" "\x7b\x7d" (.obj []) [("a", .num 1)] "muscles"
     (by decide) rfl (by decide) (by decide)⟩

/-- **C2 (counterexample).** A reply whose brace span fails to parse is
answered with the generic `Internal server error` (the `JSON.parse`
throw is caught by the handler's catch-all), not with the
`Invalid AI response` error the claim names. -/
theorem c2_counterexample :
    analyzePost (.ok (.obj [("choices", .arr [.obj [("message",
        .obj [("content", .str "\x7ba\x7d")])]])]))
      = ⟨500, errBody "Internal server error"⟩
    ∧ comparePost (.ok (.obj [("choices", .arr [.obj [("message",
        .obj [("content", .str "\x7ba\x7d")])]])]))
      = ⟨500, errBody "Internal server error"⟩
    ∧ errBody "Internal server error" ≠ errBody "Invalid AI response" := by
  refine ⟨?_, ?_, ?_⟩ <;> decide

/-- **C2 (amended).** On either endpoint: a reply text with no brace
span is answered `500 Invalid AI response`; a brace span that fails to
parse is caught by the handler boundary and answered with the generic
`500 Internal server error`.  Neither case is an unhandled fault. -/
theorem c2_amended_extraction_errors (data : Json) (text : String)
    (h : replyText data = .ok text) :
    (braceSpan text = none →
       analyzePost (.ok data) = ⟨500, errBody "Invalid AI response"⟩
       ∧ comparePost (.ok data) = ⟨500, errBody "Invalid AI response"⟩)
    ∧ (∀ span, braceSpan text = some span → parseJson span = none →
       analyzePost (.ok data) = ⟨500, errBody "Internal server error"⟩
       ∧ comparePost (.ok data) = ⟨500, errBody "Internal server error"⟩) := by
  constructor
  · intro hb
    constructor <;>
      simp [analyzePost, comparePost, h, analyzeExtract, compareExtract, hb]
  · intro span hs hp
    constructor <;>
      simp [analyzePost, comparePost, h, analyzeExtract, compareExtract, hs, hp]

theorem c2_amended_extraction_errors_witness :
    replyText (.obj [("choices", .arr [.obj [("message",
        .obj [("content", .str "no json here")])]])]) = .ok "no json here"
    ∧ ((braceSpan "no json here" = none →
          analyzePost (.ok (.obj [("choices", .arr [.obj [("message",
              .obj [("content", .str "no json here")])]])]))
            = ⟨500, errBody "Invalid AI response"⟩
          ∧ comparePost (.ok (.obj [("choices", .arr [.obj [("message",
              .obj [("content", .str "no json here")])]])]))
            = ⟨500, errBody "Invalid AI response"⟩)
       ∧ (∀ span, braceSpan "no json here" = some span → parseJson span = none →
          analyzePost (.ok (.obj [("choices", .arr [.obj [("message",
              .obj [("content", .str "no json here")])]])]))
            = ⟨500, errBody "Internal server error"⟩
          ∧ comparePost (.ok (.obj [("choices", .arr [.obj [("message",
              .obj [("content", .str "no json here")])]])]))
            = ⟨500, errBody "Internal server error"⟩)) :=
  ⟨rfl,
   c2_amended_extraction_errors
     (.obj [("choices", .arr [.obj [("message",
         .obj [("content", .str "no json here")])]])]) "no json here" rfl⟩

/-- **C1 (counterexample).** A provider reply giving `focusAreas` a
truthy non-array value is passed through unchanged, so a successful
comparison response need not contain a `focusAreas` array. -/
theorem c1_counterexample :
    compareHandler (Env.mk (some "k") none)
        (CompareReq.mk (.js (.str "b")) .undefined (.js (.str "a")) .undefined .undefined .undefined)
        (.ok (.obj [("choices", .arr [.obj [("message",
            .obj [("content", .str "\x7b\"focusAreas\":\"Chest\"\x7d")])]])]))
      = ⟨200, .obj [("focusAreas", .str "Chest"), ("daysApart", .num 0)]⟩
    ∧ Json.isArr (.str "Chest") = false := by
  constructor <;> decide

/-- **C1 (amended).** Every successful comparison response contains
`daysApart = 0` regardless of what the provider returned; `focusAreas`
is defaulted to the empty array when the parsed object omitted it or
gave it a falsy value, and a truthy `focusAreas` value is passed
through unchanged (it need not be an array). -/
theorem c1_amended_compare_fixups (text span : String) (fs : List (String × Json))
    (h1 : braceSpan text = some span) (h2 : parseJson span = some (.obj fs)) :
    compareExtract text = ⟨200, .obj (compareFixFields fs)⟩
    ∧ Json.lookupField (compareFixFields fs) "daysApart" = some (.num 0)
    ∧ (Json.lookupField fs "focusAreas" = none →
         Json.lookupField (compareFixFields fs) "focusAreas" = some (.arr []))
    ∧ (∀ v, Json.lookupField fs "focusAreas" = some v → JsVal.falsy (.js v) = true →
         Json.lookupField (compareFixFields fs) "focusAreas" = some (.arr []))
    ∧ (∀ v, Json.lookupField fs "focusAreas" = some v → JsVal.falsy (.js v) = false →
         Json.lookupField (compareFixFields fs) "focusAreas" = some v) := by
  have hne1 : ("focusAreas" : String) ≠ "daysApart" := by decide
  have hne2 : ("daysApart" : String) ≠ "focusAreas" := by decide
  have hL : Json.lookupField (Json.setField fs "daysApart" (.num 0)) "focusAreas"
      = Json.lookupField fs "focusAreas" :=
    Json.lookupField_setField_ne fs "daysApart" "focusAreas" (.num 0) hne1
  have hD : Json.lookupField (Json.setField fs "daysApart" (.num 0)) "daysApart"
      = some (.num 0) := Json.lookupField_setField_self fs "daysApart" (.num 0)
  refine ⟨by simp [compareExtract, h1, h2], ?_, ?_, ?_, ?_⟩
  · simp only [compareFixFields]
    split_ifs with hf
    · rw [Json.lookupField_setField_ne _ "focusAreas" "daysApart" _ hne2, hD]
    · exact hD
  · intro e
    have : compareFixFields fs
        = Json.setField (Json.setField fs "daysApart" (.num 0)) "focusAreas" (.arr []) := by
      simp [compareFixFields, hL, e, JsVal.falsy]
    rw [this, Json.lookupField_setField_self]
  · intro v hv hfv
    have : compareFixFields fs
        = Json.setField (Json.setField fs "daysApart" (.num 0)) "focusAreas" (.arr []) := by
      simp [compareFixFields, hL, hv, hfv]
    rw [this, Json.lookupField_setField_self]
  · intro v hv hfv
    have : compareFixFields fs = Json.setField fs "daysApart" (.num 0) := by
      simp [compareFixFields, hL, hv, hfv]
    rw [this, hL, hv]

theorem c1_amended_compare_fixups_witness :
    braceSpan "\x7b\x7d" = some "\x7b\x7d"
    ∧ parseJson "\x7b\x7d" = some (.obj [])
    ∧ (compareExtract "\x7b\x7d" = ⟨200, .obj (compareFixFields [])⟩
       ∧ Json.lookupField (compareFixFields []) "daysApart" = some (.num 0)
       ∧ (Json.lookupField ([] : List (String × Json)) "focusAreas" = none →
            Json.lookupField (compareFixFields []) "focusAreas" = some (.arr []))
       ∧ (∀ v, Json.lookupField ([] : List (String × Json)) "focusAreas" = some v →
            JsVal.falsy (.js v) = true →
            Json.lookupField (compareFixFields []) "focusAreas" = some (.arr []))
       ∧ (∀ v, Json.lookupField ([] : List (String × Json)) "focusAreas" = some v →
            JsVal.falsy (.js v) = false →
            Json.lookupField (compareFixFields []) "focusAreas" = some v)) :=
  ⟨by decide, rfl, c1_amended_compare_fixups "\x7b\x7d" "\x7b\x7d" [] (by decide) rfl⟩

/-- The brace-span match of a text that starts with `\x7b` and ends with
`\x7d` selects the whole text. -/
theorem braceSpan_pure (mid : List Char) :
    braceSpan (String.mk ('\x7b' :: mid ++ ['\x7d']))
      = some (String.mk ('\x7b' :: mid ++ ['\x7d'])) := by
  have h1 : List.findIdx? (· = '\x7b') ('\x7b' :: (mid ++ ['\x7d'])) = some 0 := by
    simp [List.findIdx?_cons]
  have h2 : List.findIdx? (· = '\x7d') (('\x7b' :: (mid ++ ['\x7d'])).reverse) = some 0 := by
    simp [List.reverse_cons, List.reverse_append, List.findIdx?_cons]
  have hlen : ('\x7b' :: (mid ++ ['\x7d'])).length = mid.length + 2 := by
    simp
  unfold braceSpan
  simp only [show (String.mk ('\x7b' :: mid ++ ['\x7d'])).toList
      = '\x7b' :: (mid ++ ['\x7d']) from rfl, h1, h2, hlen]
  rw [if_pos (by omega : 0 < mid.length + 2 - 1 - 0)]
  rw [show mid.length + 2 - 1 - 0 - 0 + 1 = ('\x7b' :: (mid ++ ['\x7d'])).length by
    rw [hlen]; omega]
  rw [List.drop_zero, List.take_length]
  rfl

/-- **C4.** Extraction is idempotent on pure JSON: a reply text that is
exactly a JSON object (first character `\x7b`, last character `\x7d`,
parses as an object) has its whole text selected by the brace-span
match, and both endpoints return that object, changed only by the
comparison endpoint's fixups. -/
theorem c4_pure_json_idempotent (text : String) (mid : List Char)
    (fs : List (String × Json))
    (hshape : text.data = '\x7b' :: mid ++ ['\x7d'])
    (hparse : parseJson text = some (.obj fs)) :
    braceSpan text = some text
    ∧ analyzeExtract text = ⟨200, .obj fs⟩
    ∧ compareExtract text = ⟨200, .obj (compareFixFields fs)⟩ := by
  have hbs : braceSpan text = some text := by
    cases text with
    | mk data =>
      subst hshape
      exact braceSpan_pure mid
  refine ⟨hbs, ?_, ?_⟩ <;> simp [analyzeExtract, compareExtract, hbs, hparse]

theorem c4_pure_json_idempotent_witness :
    ("\x7b\"a\":1\x7d" : String).data
      = '\x7b' :: ['"', 'a', '"', ':', '1'] ++ ['\x7d']
    ∧ parseJson "\x7b\"a\":1\x7d" = some (.obj [("a", .num 1)])
    ∧ (braceSpan "\x7b\"a\":1\x7d" = some "\x7b\"a\":1\x7d"
       ∧ analyzeExtract "\x7b\"a\":1\x7d" = ⟨200, .obj [("a", .num 1)]⟩
       ∧ compareExtract "\x7b\"a\":1\x7d"
           = ⟨200, .obj (compareFixFields [("a", .num 1)])⟩) :=
  ⟨rfl, by decide,
   c4_pure_json_idempotent "\x7b\"a\":1\x7d" ['"', 'a', '"', ':', '1']
     [("a", .num 1)] rfl (by decide)⟩

/-- The body-fat clause is a substring of the comparison prompt built
with a front shot. -/
theorem bodyFatClause_infix_front :
    bodyFatClause.toList <:+: (comparePrompt true).toList := by
  have h : (comparePrompt true).toList
      = comparePromptBase.toList ++ (bodyFatClause.toList ++ "\n".toList) := by
    simp [comparePrompt, String.toList, String.data_append]
  rw [h]
  exact ⟨comparePromptBase.toList, "\n".toList, by simp⟩

set_option maxRecDepth 10000 in
/-- The body-fat clause is not a substring of the comparison prompt
built without a front shot (the clause contains a capital I, which the
rest of the prompt never does). -/
theorem bodyFatClause_not_infix_nofront :
    ¬ (bodyFatClause.toList <:+: (comparePrompt false).toList) := by
  intro h
  have hcount := h.sublist.count_le 'I'
  have h1 : List.count 'I' bodyFatClause.toList = 1 := by decide
  have h2 : List.count 'I' (comparePrompt false).toList = 0 := by decide
  rw [h1, h2] at hcount
  exact absurd hcount (by decide)

/-- **C5.** The outbound comparison prompt contains the
body-fat-estimate clause iff `beforePose` or `afterPose` is the literal
string `"front"`; the pose values influence nothing else — in
particular they are never validated, and the endpoint's response is
independent of them. -/
theorem c5_front_pose_clause (env : Env) (req : CompareReq) (p : Payload)
    (h : comparePre env req = .ok p) :
    p.content.head? = some (.text (comparePrompt
        (req.beforePose.isStr "front" || req.afterPose.isStr "front")))
    ∧ (bodyFatClause.toList <:+:
         (comparePrompt (req.beforePose.isStr "front" || req.afterPose.isStr "front")).toList
       ↔ (req.beforePose.isStr "front" = true ∨ req.afterPose.isStr "front" = true))
    ∧ (∀ p' q' prov, compareHandler env
         { req with beforePose := p', afterPose := q' } prov
         = compareHandler env req prov) := by
  refine ⟨?_, ?_, ?_⟩
  · simp only [comparePre] at h
    split_ifs at h with hk hb
    cases h
    rfl
  · cases hfront : (req.beforePose.isStr "front" || req.afterPose.isStr "front")
    · rw [Bool.or_eq_false_iff] at hfront
      simp only [hfront.1, hfront.2]
      exact iff_of_false bodyFatClause_not_infix_nofront (by simp)
    · rw [Bool.or_eq_true] at hfront
      exact iff_of_true bodyFatClause_infix_front (by simpa using hfront)
  · intro p' q' prov
    obtain ⟨b₁, b₂, b₃, b₄, b₅, b₆⟩ := req
    simp only [compareHandler, comparePre]
    split_ifs <;> rfl

theorem c5_front_pose_clause_witness :
    comparePre (Env.mk (some "k") none)
        (CompareReq.mk (.js (.str "b")) .undefined (.js (.str "a")) .undefined
          (.js (.str "front")) .undefined)
      = .ok ⟨"gpt-4.1-mini",
          [.text (comparePrompt true),
           .imageUrl "data:image/jpeg;base64,b",
           .imageUrl "data:image/jpeg;base64,a"], 1600⟩
    ∧ (let req := CompareReq.mk (.js (.str "b")) .undefined (.js (.str "a")) .undefined
          (.js (.str "front")) .undefined
       let p : Payload := ⟨"gpt-4.1-mini",
          [.text (comparePrompt true),
           .imageUrl "data:image/jpeg;base64,b",
           .imageUrl "data:image/jpeg;base64,a"], 1600⟩
       p.content.head? = some (.text (comparePrompt
           (req.beforePose.isStr "front" || req.afterPose.isStr "front")))
       ∧ (bodyFatClause.toList <:+:
            (comparePrompt (req.beforePose.isStr "front" || req.afterPose.isStr "front")).toList
          ↔ (req.beforePose.isStr "front" = true ∨ req.afterPose.isStr "front" = true))
       ∧ (∀ p' q' prov, compareHandler (Env.mk (some "k") none)
            { req with beforePose := p', afterPose := q' } prov
            = compareHandler (Env.mk (some "k") none) req prov)) :=
  ⟨rfl,
   c5_front_pose_clause (Env.mk (some "k") none)
     (CompareReq.mk (.js (.str "b")) .undefined (.js (.str "a")) .undefined
       (.js (.str "front")) .undefined)
     ⟨"gpt-4.1-mini",
      [.text (comparePrompt true),
       .imageUrl "data:image/jpeg;base64,b",
       .imageUrl "data:image/jpeg;base64,a"], 1600⟩ rfl⟩

/-- **C6.** For every valid request, the outbound content is one
instructional text block followed by one inline `data:` URI image block
per photo, in previous→current (analyze) or before→after (compare)
order; the media type defaults to `image/jpeg` when the mime field is
omitted. -/
theorem c6_payload_shape (env : Env) (areq : AnalyzeReq) (creq : CompareReq)
    (pa pc : Payload)
    (ha : analyzePre env areq = .ok pa) (hc : comparePre env creq = .ok pc) :
    pc.content
      = [.text (comparePrompt (creq.beforePose.isStr "front" || creq.afterPose.isStr "front")),
         .imageUrl ("data:" ++ (JsVal.orElse creq.beforeMime (.js (.str "image/jpeg"))).jsToString
            ++ ";base64," ++ creq.beforeBase64.jsToString),
         .imageUrl ("data:" ++ (JsVal.orElse creq.afterMime (.js (.str "image/jpeg"))).jsToString
            ++ ";base64," ++ creq.afterBase64.jsToString)]
    ∧ (areq.previousImageBase64.falsy = true →
        pa.content = [.text analyzeBasePromptText,
          .imageUrl ("data:" ++ (JsVal.orElse areq.mimeType (.js (.str "image/jpeg"))).jsToString
             ++ ";base64," ++ areq.imageBase64.jsToString)])
    ∧ (areq.previousImageBase64.falsy = false →
        pa.content = [.text analyzeComparePromptText,
          .imageUrl ("data:" ++ (JsVal.orElse areq.previousMimeType (.js (.str "image/jpeg"))).jsToString
             ++ ";base64," ++ areq.previousImageBase64.jsToString),
          .imageUrl ("data:" ++ (JsVal.orElse areq.mimeType (.js (.str "image/jpeg"))).jsToString
             ++ ";base64," ++ areq.imageBase64.jsToString)])
    ∧ (∀ m : JsVal, m = .undefined →
        (JsVal.orElse m (.js (.str "image/jpeg"))).jsToString = "image/jpeg") := by
  refine ⟨?_, ?_, ?_, ?_⟩
  · simp only [comparePre] at hc
    split_ifs at hc with hk hb
    cases hc
    simp [dataUrl]
  · intro hprev
    simp only [analyzePre] at ha
    split_ifs at ha with hk hi hp
    all_goals cases ha
    all_goals simp [dataUrl]
  · intro hprev
    simp only [analyzePre] at ha
    split_ifs at ha with hk hi hp
    · rw [hprev] at hp
      exact Bool.noConfusion hp
    · cases ha
      simp [dataUrl]
  · intro m hm
    subst hm
    rfl

theorem c6_payload_shape_witness :
    analyzePre (Env.mk (some "k") none) (AnalyzeReq.mk (.js (.str "x")) .undefined .undefined .undefined)
      = .ok ⟨"gpt-4.1-mini",
          [.text analyzeBasePromptText, .imageUrl "data:image/jpeg;base64,x"], 1000⟩
    ∧ comparePre (Env.mk (some "k") none)
        (CompareReq.mk (.js (.str "b")) .undefined (.js (.str "a")) .undefined .undefined .undefined)
      = .ok ⟨"gpt-4.1-mini",
          [.text (comparePrompt false),
           .imageUrl "data:image/jpeg;base64,b",
           .imageUrl "data:image/jpeg;base64,a"], 1600⟩
    ∧ (let areq := AnalyzeReq.mk (.js (.str "x")) .undefined .undefined .undefined
       let creq := CompareReq.mk (.js (.str "b")) .undefined (.js (.str "a")) .undefined .undefined .undefined
       let pa : Payload := ⟨"gpt-4.1-mini",
          [.text analyzeBasePromptText, .imageUrl "data:image/jpeg;base64,x"], 1000⟩
       let pc : Payload := ⟨"gpt-4.1-mini",
          [.text (comparePrompt false),
           .imageUrl "data:image/jpeg;base64,b",
           .imageUrl "data:image/jpeg;base64,a"], 1600⟩
       pc.content
         = [.text (comparePrompt (creq.beforePose.isStr "front" || creq.afterPose.isStr "front")),
            .imageUrl ("data:" ++ (JsVal.orElse creq.beforeMime (.js (.str "image/jpeg"))).jsToString
               ++ ";base64," ++ creq.beforeBase64.jsToString),
            .imageUrl ("data:" ++ (JsVal.orElse creq.afterMime (.js (.str "image/jpeg"))).jsToString
               ++ ";base64," ++ creq.afterBase64.jsToString)]
       ∧ (areq.previousImageBase64.falsy = true →
           pa.content = [.text analyzeBasePromptText,
             .imageUrl ("data:" ++ (JsVal.orElse areq.mimeType (.js (.str "image/jpeg"))).jsToString
                ++ ";base64," ++ areq.imageBase64.jsToString)])
       ∧ (areq.previousImageBase64.falsy = false →
           pa.content = [.text analyzeComparePromptText,
             .imageUrl ("data:" ++ (JsVal.orElse areq.previousMimeType (.js (.str "image/jpeg"))).jsToString
                ++ ";base64," ++ areq.previousImageBase64.jsToString),
             .imageUrl ("data:" ++ (JsVal.orElse areq.mimeType (.js (.str "image/jpeg"))).jsToString
                ++ ";base64," ++ areq.imageBase64.jsToString)])
       ∧ (∀ m : JsVal, m = .undefined →
           (JsVal.orElse m (.js (.str "image/jpeg"))).jsToString = "image/jpeg")) :=
  ⟨rfl, rfl,
   c6_payload_shape (Env.mk (some "k") none)
     (AnalyzeReq.mk (.js (.str "x")) .undefined .undefined .undefined)
     (CompareReq.mk (.js (.str "b")) .undefined (.js (.str "a")) .undefined .undefined .undefined)
     ⟨"gpt-4.1-mini",
      [.text analyzeBasePromptText, .imageUrl "data:image/jpeg;base64,x"], 1000⟩
     ⟨"gpt-4.1-mini",
      [.text (comparePrompt false),
       .imageUrl "data:image/jpeg;base64,b",
       .imageUrl "data:image/jpeg;base64,a"], 1600⟩ rfl rfl⟩

/-- **C10.** On `POST /api/analyze-photo`, a `previousImageBase64` that
is present but `null` or the empty string behaves exactly as if the
field were omitted: the pre-stage result is identical, and a successful
payload carries the single-photo baseline prompt with exactly one image
block. -/
theorem c10_falsy_previous (env : Env) (req : AnalyzeReq) (p : Payload)
    (h : req.previousImageBase64 = .js .null ∨ req.previousImageBase64 = .js (.str "")) :
    analyzePre env req = analyzePre env { req with previousImageBase64 := .undefined }
    ∧ (analyzePre env req = .ok p →
        (p.content.filter Block.isImage).length = 1
        ∧ p.content.head? = some (.text analyzeBasePromptText)) := by
  have hf : req.previousImageBase64.falsy = true := by
    rcases h with h | h <;> rw [h] <;> rfl
  constructor
  · have hu : JsVal.falsy JsVal.undefined = true := rfl
    simp [analyzePre, hf, hu]
  · intro hp
    simp only [analyzePre] at hp
    split_ifs at hp with hk hi hpv
    all_goals cases hp
    all_goals exact ⟨rfl, rfl⟩

theorem c10_falsy_previous_witness :
    (AnalyzeReq.mk (.js (.str "x")) .undefined (.js .null) .undefined).previousImageBase64 = .js .null
    ∧ (analyzePre (Env.mk (some "k") none) (AnalyzeReq.mk (.js (.str "x")) .undefined (.js .null) .undefined)
         = analyzePre (Env.mk (some "k") none)
             { AnalyzeReq.mk (.js (.str "x")) .undefined (.js .null) .undefined with
                 previousImageBase64 := .undefined }
       ∧ (analyzePre (Env.mk (some "k") none) (AnalyzeReq.mk (.js (.str "x")) .undefined (.js .null) .undefined)
            = .ok ⟨"gpt-4.1-mini",
                [.text analyzeBasePromptText, .imageUrl "data:image/jpeg;base64,x"], 1000⟩ →
          ((⟨"gpt-4.1-mini",
              [.text analyzeBasePromptText, .imageUrl "data:image/jpeg;base64,x"], 1000⟩ : Payload).content.filter
              Block.isImage).length = 1
          ∧ (⟨"gpt-4.1-mini",
              [.text analyzeBasePromptText, .imageUrl "data:image/jpeg;base64,x"], 1000⟩ : Payload).content.head?
              = some (.text analyzeBasePromptText))) :=
  ⟨rfl,
   c10_falsy_previous (Env.mk (some "k") none)
     (AnalyzeReq.mk (.js (.str "x")) .undefined (.js .null) .undefined)
     ⟨"gpt-4.1-mini",
      [.text analyzeBasePromptText, .imageUrl "data:image/jpeg;base64,x"], 1000⟩
     (Or.inl rfl)⟩

end PhotoApi
